import Mathlib

/-!
# Verification of the libcamera IPU3 pipeline handler and Timer

Shallow embedding of `src/libcamera/pipeline/ipu3/ipu3.cpp` and
`src/libcamera/timer.cpp`.  C++ `unsigned int` values are modelled as `Nat`
with explicit reduction modulo `2^32` at the arithmetic operations where the
C code can wrap; `unsigned long long` likewise modulo `2^64`.  Functions
returning `int` error codes are modelled as returning `Int`.

The V4L2 device layer (`V4L2Device::setFormat`, `V4L2Subdevice::setFormat`,
`setCrop`, `setCompose`) and the base `PipelineHandler` /
`EventDispatcher` classes are not part of the analysed sources; where a
claim depends on them we model the device as recording the applied format,
and the base-class behaviour is modelled from the specification (marked
`Modelled from the spec:` on the definition).
-/

/-- The modulus 2^32 of C `unsigned int` arithmetic. -/
def U32 : Nat := 4294967296

/-- The modulus 2^64 of C `unsigned long long` arithmetic. -/
def U64 : Nat := 18446744073709551616

/-- C conversion of a (possibly negative) `int` to `unsigned int`. -/
def intToU32 (i : Int) : Nat := (i % (U32 : Int)).toNat

/-- errno EINVAL (invalid argument). -/
def EINVAL : Int := 22

/-- errno ENOENT (no such entry). -/
def ENOENT : Int := 2

/-- errno ENODEV (no such device). -/
def ENODEV : Int := 19

/-- errno ENOMEM (out of memory). -/
def ENOMEM : Int := 12

/-- errno EBUSY (device or resource busy). -/
def EBUSY : Int := 16

/-- errno EACCES: libcamera surfaces invalid-state errors as -EACCES. -/
def EACCES : Int := 13

/-- The five error codes documented by the spec (section 6): invalid-argument,
invalid-state (surfaced as EACCES), no-device, no-memory, busy. -/
def documentedErrorCodes : List Int := [-EINVAL, -EACCES, -ENODEV, -ENOMEM, -EBUSY]

/- Media-bus format codes from `linux/media-bus-format.h`. -/

def MEDIA_BUS_FMT_FIXED : Nat := 0x0001

def MEDIA_BUS_FMT_SBGGR10_1X10 : Nat := 0x3007

def MEDIA_BUS_FMT_SGBRG10_1X10 : Nat := 0x300d

def MEDIA_BUS_FMT_SGRBG10_1X10 : Nat := 0x300a

def MEDIA_BUS_FMT_SRGGB10_1X10 : Nat := 0x300f

/- V4L2 fourcc pixel formats from `linux/videodev2.h` (little-endian fourcc). -/

def V4L2_PIX_FMT_IPU3_SBGGR10 : Nat := 0x62337069

def V4L2_PIX_FMT_IPU3_SGBRG10 : Nat := 0x67337069

def V4L2_PIX_FMT_IPU3_SGRBG10 : Nat := 0x47337069

def V4L2_PIX_FMT_IPU3_SRGGB10 : Nat := 0x72337069

def V4L2_PIX_FMT_NV12 : Nat := 0x3231564e

/-- Embeds `SizeRange` from libcamera geometry: a range of sizes supported by a
sensor for one media-bus code.  Only the maxima are used by the IPU3 code. -/
structure SizeRange where
  minWidth : Nat
  minHeight : Nat
  maxWidth : Nat
  maxHeight : Nat
deriving DecidableEq, Repr

/-- Embeds `Size` from libcamera geometry (default-constructed to 0x0). -/
structure Size where
  width : Nat
  height : Nat
deriving DecidableEq, Repr

/-- Embeds `Rectangle` from libcamera geometry. -/
structure Rectangle where
  x : Int
  y : Int
  w : Nat
  h : Nat
deriving DecidableEq, Repr

/-- Embeds `V4L2SubdeviceFormat`: media-bus format applied on a subdevice pad. -/
structure V4L2SubdeviceFormat where
  width : Nat
  height : Nat
  mbus_code : Nat
deriving DecidableEq, Repr

/-- Embeds `V4L2DeviceFormat`: pixel format applied on a video device. -/
structure V4L2DeviceFormat where
  width : Nat
  height : Nat
  fourcc : Nat
  planesCount : Nat
deriving DecidableEq, Repr

/-- Embeds `StreamConfiguration` (stream.h): width, height, pixel format, buffers. -/
structure StreamConfiguration where
  width : Nat
  height : Nat
  pixelFormat : Nat
  bufferCount : Nat
deriving DecidableEq, Repr

/-- Embeds `CIO2Device::mediaBusToFormat` (ipu3.cpp): translate a sensor media-bus
code to the IPU3 packed V4L2 pixel format, `-EINVAL` for unsupported codes. -/
def CIO2Device.mediaBusToFormat (code : Nat) : Int :=
  if code = MEDIA_BUS_FMT_SBGGR10_1X10 then (V4L2_PIX_FMT_IPU3_SBGGR10 : Int)
  else if code = MEDIA_BUS_FMT_SGBRG10_1X10 then (V4L2_PIX_FMT_IPU3_SGBRG10 : Int)
  else if code = MEDIA_BUS_FMT_SGRBG10_1X10 then (V4L2_PIX_FMT_IPU3_SGRBG10 : Int)
  else if code = MEDIA_BUS_FMT_SRGGB10_1X10 then (V4L2_PIX_FMT_IPU3_SRGGB10 : Int)
  else -EINVAL

/-!
## Timer (`src/libcamera/timer.cpp`)

The event dispatcher holding the set of armed timers is not part of the
analysed sources.  Modelled from the spec: "A per-thread event dispatcher
owns the set of armed timers"; `registerTimer` adds a timer to that set and
`unregisterTimer` removes it; timers fire exclusively from `processEvents`,
which fires expired registered timers.  Timers are identified by a `Nat` id.
-/

/-- Timer state: `interval_` (ms) and `deadline_` (ns), plus the identity of
the timer object used for dispatcher registration. -/
structure TimerState where
  id : Nat
  interval : Nat
  deadline : Nat
deriving DecidableEq, Repr

/-- Modelled from the spec: the event dispatcher's set of armed timers. -/
structure EventDispatcher where
  timers : List Nat
deriving DecidableEq, Repr

/-- Modelled from the spec: `EventDispatcher::registerTimer` adds the timer
to the dispatcher's set of armed timers. -/
def EventDispatcher.registerTimer (d : EventDispatcher) (tid : Nat) : EventDispatcher :=
  if tid ∈ d.timers then d else ⟨tid :: d.timers⟩

/-- Modelled from the spec: `EventDispatcher::unregisterTimer` removes the
timer from the dispatcher's set of armed timers. -/
def EventDispatcher.unregisterTimer (d : EventDispatcher) (tid : Nat) : EventDispatcher :=
  ⟨d.timers.filter (fun t => t ≠ tid)⟩

/-- Modelled from the spec: the timers the dispatcher fires during one
`processEvents` round at monotonic time `now`: the registered timers whose
deadline has expired.  `deadlineOf` maps a timer id to its deadline. -/
def EventDispatcher.expiredTimers (d : EventDispatcher) (deadlineOf : Nat → Nat)
    (now : Nat) : List Nat :=
  d.timers.filter (fun t => deadlineOf t ≤ now)

/-- Embeds `Timer::start(msec)` (timer.cpp): sample CLOCK_MONOTONIC (modelled by the
`sec`/`nsec` parameters), set `interval_` and
`deadline_ = tv_sec * 1000000000ULL + tv_nsec + msec * 1000000ULL`, and
register with the owning thread's dispatcher. -/
def Timer.start (t : TimerState) (d : EventDispatcher) (sec nsec msec : Nat) :
    TimerState × EventDispatcher :=
  let t' : TimerState :=
    { t with interval := msec,
             deadline := (sec * 1000000000 + nsec + msec * 1000000) % U64 }
  (t', d.registerTimer t.id)

/-- Embeds `Timer::stop()` (timer.cpp): unregister from the dispatcher, then zero
the deadline. -/
def Timer.stop (t : TimerState) (d : EventDispatcher) :
    TimerState × EventDispatcher :=
  ({ t with deadline := 0 }, d.unregisterTimer t.id)

/-- Embeds `Timer::isRunning()` (timer.cpp): `deadline_ != 0`. -/
def Timer.isRunning (t : TimerState) : Bool := t.deadline ≠ 0

/-- Message types, from message.h (`Message::ThreadMoveMessage` and others). -/
inductive MessageType where
  | threadMove
  | other
deriving DecidableEq, Repr

/-- An invocation posted on a thread's message queue.  Modelled from the
spec: `invokeMethod` posts a message carrying an erased invocation onto the
queue of the object's thread. -/
inductive QueuedInvocation where
  | registerTimer (timerId : Nat)
deriving DecidableEq, Repr

/-- Embeds `Timer::message(msg)` (timer.cpp): on `ThreadMoveMessage`, if the timer
is armed (`deadline_` nonzero), unregister from the old thread's dispatcher
and post the re-registration as a queued invocation
(`invokeMethod(&Timer::registerTimer)`) on the new thread's queue.
Returns the timer state, the old dispatcher, and the new thread's queue. -/
def Timer.message (t : TimerState) (oldDisp : EventDispatcher)
    (newQueue : List QueuedInvocation) (msg : MessageType) :
    TimerState × EventDispatcher × List QueuedInvocation :=
  if msg = MessageType.threadMove then
    if t.deadline ≠ 0 then
      (t, oldDisp.unregisterTimer t.id, newQueue ++ [QueuedInvocation.registerTimer t.id])
    else
      (t, oldDisp, newQueue)
  else
    (t, oldDisp, newQueue)

/-- Modelled from the spec: executing a queued invocation during the target
thread's next dispatch round. -/
def runQueuedInvocation (d : EventDispatcher) : QueuedInvocation → EventDispatcher
  | QueuedInvocation.registerTimer tid => d.registerTimer tid

/-!
## CIO2 device (`ipu3.cpp`)

`sensor_->formats(0)` returns a map from media-bus code to the sizes the
sensor supports for that code; it is embedded as an association list in the
map's enumeration order.  The V4L2 `setFormat` calls are modelled as the
device recording the applied format (the V4L2 layer is outside the analysed
sources); the recorded formats are `Option` fields, `none` until a format
is applied.
-/

/-- State of a `CIO2Device`: the sensor's supported formats, the cached
maximum size and mbus code from `CIO2Device::init`, and the formats applied
to the sensor subdevice, the CSI-2 receiver and the CIO2 output video
device. -/
structure CIO2State where
  sensorFormats : List (Nat × List SizeRange)
  maxSize : Size
  mbusCode : Nat
  sensorFormat : Option V4L2SubdeviceFormat
  csi2Format : Option V4L2SubdeviceFormat
  outputFormat : Option V4L2DeviceFormat
deriving DecidableEq, Repr

/-- Inner step of the maximum-size scan of `CIO2Device::init` (ipu3.cpp):
update `(maxSize_, mbusCode_)` whenever both dimensions strictly grow. -/
def maxSizeSizeStep (code : Nat) (acc : Size × Nat) (size : SizeRange) : Size × Nat :=
  if acc.1.width < size.maxWidth ∧ acc.1.height < size.maxHeight then
    (⟨size.maxWidth, size.maxHeight⟩, intToU32 (CIO2Device.mediaBusToFormat code))
  else acc

/-- Outer step of the maximum-size scan of `CIO2Device::init` (ipu3.cpp):
skip media-bus codes `mediaBusToFormat` rejects. -/
def maxSizeFmtStep (acc : Size × Nat) (fmt : Nat × List SizeRange) : Size × Nat :=
  if CIO2Device.mediaBusToFormat fmt.1 < 0 then acc
  else fmt.2.foldl (maxSizeSizeStep fmt.1) acc

/-- The maximum-size scan of `CIO2Device::init` (ipu3.cpp): for each sensor
format whose media-bus code translates (`mediaBusToFormat`), update
`(maxSize_, mbusCode_)` whenever both dimensions strictly grow.  `maxSize_`
starts default-constructed at 0x0. -/
def cio2ComputeMaxSize (formats : List (Nat × List SizeRange)) : Size × Nat :=
  formats.foldl maxSizeFmtStep (⟨0, 0⟩, 0)

/-- One inner-loop step of the `CIO2Device::configure` selection (ipu3.cpp):
skip sizes smaller than the request in either dimension, compute
`diff = size.maxWidth * size.maxHeight - imageSize` in `unsigned int`
arithmetic, skip if `diff >= best`, otherwise record the new best and the
candidate sensor format.  The accumulator is `(best, sensorFormat)`. -/
def selectSizeStep (config : StreamConfiguration) (imageSize : Nat) (code : Nat)
    (acc : Nat × V4L2SubdeviceFormat) (size : SizeRange) : Nat × V4L2SubdeviceFormat :=
  if size.maxWidth < config.width ∨ size.maxHeight < config.height then acc
  else
    let diff := (size.maxWidth * size.maxHeight % U32 + U32 - imageSize) % U32
    if acc.1 ≤ diff then acc
    else (diff, ⟨size.maxWidth, size.maxHeight, code⟩)

/-- Outer step of the `CIO2Device::configure` selection (ipu3.cpp): only
consider formats consumable by the CIO2 unit. -/
def selectFmtStep (config : StreamConfiguration) (imageSize : Nat)
    (acc : Nat × V4L2SubdeviceFormat) (fmt : Nat × List SizeRange) :
    Nat × V4L2SubdeviceFormat :=
  if CIO2Device.mediaBusToFormat fmt.1 < 0 then acc
  else fmt.2.foldl (selectSizeStep config imageSize fmt.1) acc

/-- The sensor-format selection loop of `CIO2Device::configure` (ipu3.cpp):
iterate the sensor formats, skipping media-bus codes the CIO2 cannot
consume, with `best` initialised to `~0` (`U32 - 1`) and `sensorFormat`
zero-initialised. -/
def cio2SelectFormat (formats : List (Nat × List SizeRange))
    (config : StreamConfiguration) : Nat × V4L2SubdeviceFormat :=
  formats.foldl (selectFmtStep config (config.width * config.height % U32))
    (U32 - 1, ⟨0, 0, 0⟩)

/-- Embeds `CIO2Device::configure` (ipu3.cpp): select the sensor format, apply it to
the sensor and the CSI-2 receiver, and derive and apply the CIO2 output
video-device format (`planesCount = 1`, fourcc from `mediaBusToFormat`).
Returns `(ret, new state, *outputFormat)`. -/
def CIO2Device.configure (st : CIO2State) (config : StreamConfiguration) :
    Int × CIO2State × V4L2DeviceFormat :=
  let sensorFormat := (cio2SelectFormat st.sensorFormats config).2
  let outputFormat : V4L2DeviceFormat :=
    ⟨sensorFormat.width, sensorFormat.height,
     intToU32 (CIO2Device.mediaBusToFormat sensorFormat.mbus_code), 1⟩
  (0,
   { st with sensorFormat := some sensorFormat,
             csi2Format := some sensorFormat,
             outputFormat := some outputFormat },
   outputFormat)

/-!
## ImgU device (`ipu3.cpp`)
-/

def ImgUDevice.PAD_INPUT : Nat := 0

def ImgUDevice.PAD_OUTPUT : Nat := 2

def ImgUDevice.PAD_VF : Nat := 3

def ImgUDevice.PAD_STAT : Nat := 4

/-- The three ImgU outputs (`output_`, `viewfinder_`, `stat_`); the C++ code
distinguishes them by object identity (`output == &stat_`). -/
inductive ImgUOutputId where
  | output
  | viewfinder
  | stat
deriving DecidableEq, Repr

/-- The pad of each ImgU output, as set by `ImgUDevice::init`. -/
def ImgUDevice.padOf : ImgUOutputId → Nat
  | ImgUOutputId.output => ImgUDevice.PAD_OUTPUT
  | ImgUOutputId.viewfinder => ImgUDevice.PAD_VF
  | ImgUOutputId.stat => ImgUDevice.PAD_STAT

/-- State of an `ImgUDevice`: the format applied to the input video device,
the crop/compose rectangles on the input pad, the subdevice pad formats (in
application order), and the video-device formats of the output and
viewfinder nodes. -/
structure ImgUState where
  inputFormat : Option V4L2DeviceFormat
  inputCrop : Option Rectangle
  inputCompose : Option Rectangle
  padFormats : List (Nat × V4L2SubdeviceFormat)
  outputDevFormat : Option V4L2DeviceFormat
  viewfinderDevFormat : Option V4L2DeviceFormat
deriving DecidableEq, Repr

/-- Embeds `ImgUDevice::configureInput` (ipu3.cpp): apply `inputFormat` to the input
video device, set crop and compose on the input pad to the input-format
rectangle, and apply the `(config.width, config.height, FIXED)` subdevice
format to the input pad. -/
def ImgUDevice.configureInput (st : ImgUState) (config : StreamConfiguration)
    (inputFormat : V4L2DeviceFormat) : Int × ImgUState :=
  let rect : Rectangle := ⟨0, 0, inputFormat.width, inputFormat.height⟩
  let imguFormat : V4L2SubdeviceFormat := ⟨config.width, config.height, MEDIA_BUS_FMT_FIXED⟩
  (0,
   { st with inputFormat := some inputFormat,
             inputCrop := some rect,
             inputCompose := some rect,
             padFormats := st.padFormats ++ [(ImgUDevice.PAD_INPUT, imguFormat)] })

/-- Embeds `ImgUDevice::configureOutput` (ipu3.cpp): apply the
`(config.width, config.height, FIXED)` subdevice format on the output's pad;
for the stat node nothing more is applied; for output and viewfinder apply
the NV12 two-plane video-device format with the requested size. -/
def ImgUDevice.configureOutput (st : ImgUState) (outId : ImgUOutputId)
    (config : StreamConfiguration) : Int × ImgUState :=
  let imguFormat : V4L2SubdeviceFormat := ⟨config.width, config.height, MEDIA_BUS_FMT_FIXED⟩
  let st1 := { st with padFormats := st.padFormats ++ [(ImgUDevice.padOf outId, imguFormat)] }
  if outId = ImgUOutputId.stat then (0, st1)
  else
    let outputFormat : V4L2DeviceFormat := ⟨config.width, config.height, V4L2_PIX_FMT_NV12, 2⟩
    match outId with
    | ImgUOutputId.output => (0, { st1 with outputDevFormat := some outputFormat })
    | ImgUOutputId.viewfinder => (0, { st1 with viewfinderDevFormat := some outputFormat })
    | ImgUOutputId.stat => (0, st1)

/-- Embeds `PipelineHandlerIPU3::configureStreams` (ipu3.cpp): reject sizes whose
width is not a multiple of 8 or height not a multiple of 4, or exceeding the
cached sensor maximum, with `-EINVAL`; otherwise configure the CIO2, the
ImgU input, and the ImgU output, viewfinder and stat nodes in that order. -/
def PipelineHandlerIPU3.configureStreams (cio2 : CIO2State) (imgu : ImgUState)
    (cfg : StreamConfiguration) : Int × CIO2State × ImgUState :=
  if cfg.width % 8 ≠ 0 ∨ cfg.height % 4 ≠ 0 then (-EINVAL, cio2, imgu)
  else if cio2.maxSize.width < cfg.width ∨ cio2.maxSize.height < cfg.height then
    (-EINVAL, cio2, imgu)
  else
    let r1 := CIO2Device.configure cio2 cfg
    if r1.1 ≠ 0 then (r1.1, r1.2.1, imgu)
    else
      let r2 := ImgUDevice.configureInput imgu cfg r1.2.2
      if r2.1 ≠ 0 then (r2.1, r1.2.1, r2.2)
      else
        let r3 := ImgUDevice.configureOutput r2.2 ImgUOutputId.output cfg
        if r3.1 ≠ 0 then (r3.1, r1.2.1, r3.2)
        else
          let r4 := ImgUDevice.configureOutput r3.2 ImgUOutputId.viewfinder cfg
          if r4.1 ≠ 0 then (r4.1, r1.2.1, r4.2)
          else
            let r5 := ImgUDevice.configureOutput r4.2 ImgUOutputId.stat cfg
            if r5.1 ≠ 0 then (r5.1, r1.2.1, r5.2)
            else (0, r1.2.1, r5.2)

/-!
## Requests and per-camera completion (`ipu3.cpp`)

`PipelineHandler::queueRequest`, `completeBuffer` and `completeRequest` live
in the base class, which is not part of the analysed sources.  Modelled from
the spec (sections 4.4 and 4.5): the base `queueRequest` appends the request
to the per-camera queued FIFO; `completeBuffer` attaches the completed
buffer to the request and emits `bufferCompleted`; `completeRequest` pops
the request and emits `requestCompleted` once every stream of the request
has a completed buffer.  Streams and buffers are identified by `Nat` ids.
-/

/-- The single stream (`stream_`) of an IPU3 camera. -/
def IPU3_STREAM : Nat := 0

/-- A request: its id, the buffers attached to it (stream id, buffer id),
and the streams whose buffer has not yet completed. -/
structure IPU3Request where
  id : Nat
  buffers : List (Nat × Nat)
  pendingStreams : List Nat
deriving DecidableEq, Repr

/-- Embeds `Request::findBuffer(stream)`: the buffer attached to the given stream,
if any. -/
def IPU3Request.findBuffer (req : IPU3Request) (streamId : Nat) : Option Nat :=
  (req.buffers.find? (fun b => b.1 = streamId)).map (fun b => b.2)

/-- Signals emitted by the camera, in emission order. -/
inductive CameraEvent where
  | bufferCompleted (reqId : Nat) (streamId : Nat)
  | requestCompleted (reqId : Nat)
deriving DecidableEq, Repr

/-- Per-camera request state: the queued FIFO (`queuedRequests_`) and the
trace of emitted completion signals. -/
structure CameraRequestState where
  queuedRequests : List IPU3Request
  trace : List CameraEvent
deriving DecidableEq, Repr

/-- Embeds `PipelineHandlerIPU3::queueRequest` (ipu3.cpp): locate the buffer the
request attaches to the camera's stream (`-ENOENT` if absent), queue it at
the CIO2 output device, and on success append the request to the per-camera
FIFO (the append is the base `PipelineHandler::queueRequest`, modelled from
the spec).  `queueBufferRet` is the result of the external
`cio2->queueBuffer(buffer)` call. -/
def PipelineHandlerIPU3.queueRequest (st : CameraRequestState) (req : IPU3Request)
    (queueBufferRet : Int) : Int × CameraRequestState :=
  match req.findBuffer IPU3_STREAM with
  | none => (-ENOENT, st)
  | some _ =>
    if queueBufferRet < 0 then (queueBufferRet, st)
    else (0, { st with queuedRequests := st.queuedRequests ++ [req] })

/-- Embeds `PipelineHandlerIPU3::IPU3CameraData::bufferReady` (ipu3.cpp): take the
request at the front of the FIFO, complete the buffer on it
(`completeBuffer`, modelled from the spec: mark the buffer's stream
completed and emit `bufferCompleted`), then `completeRequest` (modelled from
the spec: pop and emit `requestCompleted` only once every stream of the
request has a completed buffer).  `streamId` identifies the stream of the
completed buffer.  An invocation with an empty FIFO is left as a no-op: the
kernel only completes buffers of queued requests. -/
def IPU3CameraData.bufferReady (st : CameraRequestState) (streamId : Nat) :
    CameraRequestState :=
  match st.queuedRequests with
  | [] => st
  | req :: rest =>
    let req' := { req with pendingStreams := req.pendingStreams.erase streamId }
    let traceB := st.trace ++ [CameraEvent.bufferCompleted req.id streamId]
    if req'.pendingStreams = [] then
      { queuedRequests := rest,
        trace := traceB ++ [CameraEvent.requestCompleted req.id] }
    else
      { queuedRequests := req' :: rest, trace := traceB }

/-- A run of buffer-completion signals: fold `bufferReady` over the stream
ids of the completed buffers, in signal order. -/
def runBufferReady (st : CameraRequestState) (streamIds : List Nat) :
    CameraRequestState :=
  streamIds.foldl IPU3CameraData.bufferReady st

/-- The request ids carried by the `requestCompleted` signals of a trace, in
emission order. -/
def completedIds (trace : List CameraEvent) : List Nat :=
  trace.filterMap
    (fun e => match e with
      | CameraEvent.requestCompleted i => some i
      | CameraEvent.bufferCompleted _ _ => none)

/-!
## `streamConfiguration`, `match` and `registerCameras` (`ipu3.cpp`)
-/

/-- Embeds `PipelineHandlerIPU3::streamConfiguration` (ipu3.cpp): if querying the
sensor's current format fails (`getFormatRet` nonzero) return no
configurations; otherwise return a single configuration for the camera's
stream, seeded from the sensor's current size, with pixel format
`V4L2_PIX_FMT_IPU3_SGRBG10` and 4 buffers.  The `streams` argument is
accepted but, as in the source, not consulted. -/
def PipelineHandlerIPU3.streamConfiguration (getFormatRet : Int)
    (sensorFormat : V4L2SubdeviceFormat) (streams : List Nat) :
    List (Nat × StreamConfiguration) :=
  if getFormatRet ≠ 0 then []
  else
    [(IPU3_STREAM,
      ⟨sensorFormat.width, sensorFormat.height, V4L2_PIX_FMT_IPU3_SGRBG10, 4⟩)]

/-- The outcomes of the external steps `PipelineHandlerIPU3::match` performs:
whether the enumerator finds each media device, and the results of the open,
`disableLinks` and `registerCameras` calls. -/
structure MatchEnv where
  cio2Found : Bool
  imguFound : Bool
  cio2OpenRet : Int
  cio2DisableLinksRet : Int
  imguOpenRet : Int
  imguDisableLinksRet : Int
  registerCamerasRet : Int
deriving DecidableEq, Repr

/-- Embeds `PipelineHandlerIPU3::match` (ipu3.cpp).  The local `int ret` is only
assigned by `ret = registerCameras()`; when `imguMediaDev_->disableLinks()`
fails the code jumps to the `error:` label and evaluates `return ret == 0`
with `ret` still uninitialised.  `retInit` models the indeterminate value
`ret` holds on that path. -/
def PipelineHandlerIPU3.ipu3Match (env : MatchEnv) (retInit : Int) : Bool :=
  if !env.cio2Found then false
  else if !env.imguFound then false
  else if env.cio2OpenRet ≠ 0 then false
  else if env.cio2DisableLinksRet ≠ 0 then false
  else if env.imguOpenRet ≠ 0 then false
  else if env.imguDisableLinksRet ≠ 0 then decide (retInit = 0)
  else decide (env.registerCamerasRet = 0)

/-- The camera-registration loop of `PipelineHandlerIPU3::registerCameras`
(ipu3.cpp): `for (id = 0; id < 4 && numCameras < 2; ++id)`, embedded over
the list of remaining ids.  `cio2InitRet id` is the result of
`cio2->init(media, id)`; a failed init skips the id.  The registered camera
is paired with its assigned ImgU instance
(`data->imgu_ = numCameras ? &imgu1_ : &imgu0_`). -/
def registerLoop (cio2InitRet : Nat → Int) : List Nat → Nat → List (Nat × Nat)
  | [], _ => []
  | id :: rest, numCameras =>
    if numCameras < 2 then
      if cio2InitRet id ≠ 0 then registerLoop cio2InitRet rest numCameras
      else (id, if numCameras = 0 then 0 else 1) ::
           registerLoop cio2InitRet rest (numCameras + 1)
    else []

/-- Embeds `PipelineHandlerIPU3::registerCameras` (ipu3.cpp): initialise the two
ImgU instances (failing fast on error), then scan CSI-2 receivers 0..3,
registering at most two cameras; return `-ENODEV` when none was registered,
0 otherwise.  Returns the code and the list of `(CSI-2 id, ImgU index)`
pairs of the registered cameras, in registration order. -/
def PipelineHandlerIPU3.registerCameras (imgu0InitRet imgu1InitRet : Int)
    (cio2InitRet : Nat → Int) : Int × List (Nat × Nat) :=
  if imgu0InitRet ≠ 0 then (imgu0InitRet, [])
  else if imgu1InitRet ≠ 0 then (imgu1InitRet, [])
  else
    let cameras := registerLoop cio2InitRet [0, 1, 2, 3] 0
    (if cameras.length ≠ 0 then 0 else -ENODEV, cameras)

/-!
## Specification-side helpers for the CIO2 format selection
-/

/-- The candidates the `CIO2Device::configure` selection loop considers, in
enumeration order: pairs of a CIO2-consumable media-bus code and a size
whose maximum covers the request in both dimensions. -/
def cio2Candidates (formats : List (Nat × List SizeRange))
    (cfg : StreamConfiguration) : List (Nat × SizeRange) :=
  formats.foldr
    (fun fmt acc =>
      if CIO2Device.mediaBusToFormat fmt.1 < 0 then acc
      else ((fmt.2.filter
              (fun s => cfg.width ≤ s.maxWidth ∧ cfg.height ≤ s.maxHeight)).map
              (fun s => (fmt.1, s))) ++ acc)
    []

/-- The `unsigned int` value of `diff` the selection loop computes for a
size, given `imageSize` (already reduced modulo `U32`). -/
def cio2Diff (imageSize : Nat) (s : SizeRange) : Nat :=
  (s.maxWidth * s.maxHeight % U32 + U32 - imageSize) % U32

/-- The selection step restricted to prequalified candidates: keep the
accumulator unless the candidate's `diff` is strictly smaller. -/
def selectAccStep (imageSize : Nat) (acc : Nat × V4L2SubdeviceFormat)
    (c : Nat × SizeRange) : Nat × V4L2SubdeviceFormat :=
  if acc.1 ≤ cio2Diff imageSize c.2 then acc
  else (cio2Diff imageSize c.2, ⟨c.2.maxWidth, c.2.maxHeight, c.1⟩)

/-- The mathematical excess pixel area of a sensor size over the request. -/
def excessArea (cfg : StreamConfiguration) (s : SizeRange) : Nat :=
  s.maxWidth * s.maxHeight - cfg.width * cfg.height

/-!
## Theorems
-/

/-- C7: `CIO2Device::mediaBusToFormat` maps exactly the four raw Bayer
media-bus codes SBGGR10_1X10, SGBRG10_1X10, SGRBG10_1X10 and SRGGB10_1X10 to
their IPU3 packed equivalents, and returns the negative error `-EINVAL` for
every other code. -/
theorem mediaBusToFormat_exact :
    CIO2Device.mediaBusToFormat MEDIA_BUS_FMT_SBGGR10_1X10 = (V4L2_PIX_FMT_IPU3_SBGGR10 : Int) ∧
    CIO2Device.mediaBusToFormat MEDIA_BUS_FMT_SGBRG10_1X10 = (V4L2_PIX_FMT_IPU3_SGBRG10 : Int) ∧
    CIO2Device.mediaBusToFormat MEDIA_BUS_FMT_SGRBG10_1X10 = (V4L2_PIX_FMT_IPU3_SGRBG10 : Int) ∧
    CIO2Device.mediaBusToFormat MEDIA_BUS_FMT_SRGGB10_1X10 = (V4L2_PIX_FMT_IPU3_SRGGB10 : Int) ∧
    ∀ code : Nat,
      code ≠ MEDIA_BUS_FMT_SBGGR10_1X10 → code ≠ MEDIA_BUS_FMT_SGBRG10_1X10 →
      code ≠ MEDIA_BUS_FMT_SGRBG10_1X10 → code ≠ MEDIA_BUS_FMT_SRGGB10_1X10 →
      CIO2Device.mediaBusToFormat code = -EINVAL ∧ CIO2Device.mediaBusToFormat code < 0 := by
  refine ⟨by decide, by decide, by decide, by decide, ?_⟩
  intro code h1 h2 h3 h4
  rw [CIO2Device.mediaBusToFormat, if_neg h1, if_neg h2, if_neg h3, if_neg h4]
  exact ⟨rfl, by decide⟩

/-- Witness for C7: the code 0x3011 (SBGGR12_1X12) is none of the four and is
rejected with `-EINVAL`. -/
theorem mediaBusToFormat_exact_witness :
    ((0x3011 : Nat) ≠ MEDIA_BUS_FMT_SBGGR10_1X10 ∧
     (0x3011 : Nat) ≠ MEDIA_BUS_FMT_SGBRG10_1X10 ∧
     (0x3011 : Nat) ≠ MEDIA_BUS_FMT_SGRBG10_1X10 ∧
     (0x3011 : Nat) ≠ MEDIA_BUS_FMT_SRGGB10_1X10) ∧
    CIO2Device.mediaBusToFormat 0x3011 = -EINVAL ∧
    CIO2Device.mediaBusToFormat 0x3011 < 0 :=
  ⟨⟨by decide, by decide, by decide, by decide⟩,
   mediaBusToFormat_exact.2.2.2.2 0x3011 (by decide) (by decide) (by decide) (by decide)⟩

/-- C2: a requested configuration whose width is not a multiple of 8, whose
height is not a multiple of 4, or whose width or height exceeds the cached
sensor maximum, is rejected by `PipelineHandlerIPU3::configureStreams` with
`-EINVAL`, with no format applied to any device: the CIO2 and ImgU states
are returned unchanged. -/
theorem configureStreams_rejects_invalid (cio2 : CIO2State) (imgu : ImgUState)
    (cfg : StreamConfiguration)
    (h : cfg.width % 8 ≠ 0 ∨ cfg.height % 4 ≠ 0 ∨
         cio2.maxSize.width < cfg.width ∨ cio2.maxSize.height < cfg.height) :
    PipelineHandlerIPU3.configureStreams cio2 imgu cfg = (-EINVAL, cio2, imgu) := by
  rw [PipelineHandlerIPU3.configureStreams]
  by_cases h8 : cfg.width % 8 ≠ 0 ∨ cfg.height % 4 ≠ 0
  · rw [if_pos h8]
  · rw [if_neg h8]
    have hsz : cio2.maxSize.width < cfg.width ∨ cio2.maxSize.height < cfg.height := by
      rcases h with h | h | h | h
      · exact absurd (Or.inl h) h8
      · exact absurd (Or.inr h) h8
      · exact Or.inl h
      · exact Or.inr h
    rw [if_pos hsz]

/-- Witness for C2: a 641x480 request (width not a multiple of 8) is rejected
with `-EINVAL` and the device states are unchanged. -/
theorem configureStreams_rejects_invalid_witness :
    ((641 : Nat) % 8 ≠ 0 ∨ (480 : Nat) % 4 ≠ 0 ∨
     (1920 : Nat) < 641 ∨ (1080 : Nat) < 480) ∧
    PipelineHandlerIPU3.configureStreams
        ⟨[], ⟨1920, 1080⟩, 0, none, none, none⟩
        ⟨none, none, none, [], none, none⟩
        ⟨641, 480, 0, 4⟩ =
      (-EINVAL, ⟨[], ⟨1920, 1080⟩, 0, none, none, none⟩,
       ⟨none, none, none, [], none, none⟩) :=
  ⟨Or.inl (by decide),
   configureStreams_rejects_invalid _ _ _ (Or.inl (by decide))⟩

/-- C6: `PipelineHandlerIPU3::streamConfiguration`, for the camera's
(non-empty) set of streams, returns exactly one default configuration per
requested stream, seeded from the sensor's current size, with pixel format
`V4L2_PIX_FMT_IPU3_SGRBG10` and a buffer count of 4; when querying the
sensor's current format fails it returns no configurations. -/
theorem streamConfiguration_default (getFormatRet : Int) (fmt : V4L2SubdeviceFormat)
    (streams : List Nat) (hs : streams = [IPU3_STREAM]) :
    (getFormatRet = 0 →
      PipelineHandlerIPU3.streamConfiguration getFormatRet fmt streams =
        streams.map (fun s =>
          (s, ⟨fmt.width, fmt.height, V4L2_PIX_FMT_IPU3_SGRBG10, 4⟩))) ∧
    (getFormatRet ≠ 0 →
      PipelineHandlerIPU3.streamConfiguration getFormatRet fmt streams = []) := by
  subst hs
  constructor
  · intro h
    simp [PipelineHandlerIPU3.streamConfiguration, h]
  · intro h
    simp [PipelineHandlerIPU3.streamConfiguration, h]

/-- Witness for C6: with the sensor reporting 1936x1096, the single stream
gets a 1936x1096 IPU3_SGRBG10 configuration with 4 buffers. -/
theorem streamConfiguration_default_witness :
    ([IPU3_STREAM] = [IPU3_STREAM] ∧ (0 : Int) = 0) ∧
    PipelineHandlerIPU3.streamConfiguration 0 ⟨1936, 1096, 0x300a⟩ [IPU3_STREAM] =
      [(IPU3_STREAM, ⟨1936, 1096, V4L2_PIX_FMT_IPU3_SGRBG10, 4⟩)] :=
  ⟨⟨rfl, rfl⟩,
   by
    have h := (streamConfiguration_default 0 ⟨1936, 1096, 0x300a⟩ [IPU3_STREAM] rfl).1 rfl
    simpa using h⟩

/-- C8: after `Timer::start(msec)` the deadline equals the CLOCK_MONOTONIC
time sampled during start plus `msec` milliseconds in nanoseconds (hence a
deadline at least `now + msec`) and `isRunning()` is true; after
`Timer::stop()` the deadline is zero, `isRunning()` is false, the timer is
no longer registered, and the dispatcher fires no timeout from that arming;
starting an already-running timer restarts it with the new deadline. -/
theorem timer_start_stop_spec (t : TimerState) (d : EventDispatcher)
    (sec nsec msec : Nat)
    (hpos : 0 < sec * 1000000000 + nsec)
    (hov : sec * 1000000000 + nsec + msec * 1000000 < U64) :
    ((Timer.start t d sec nsec msec).1.deadline =
        sec * 1000000000 + nsec + msec * 1000000) ∧
    (sec * 1000000000 + nsec + msec ≤ (Timer.start t d sec nsec msec).1.deadline) ∧
    Timer.isRunning (Timer.start t d sec nsec msec).1 = true ∧
    ((Timer.stop (Timer.start t d sec nsec msec).1
        (Timer.start t d sec nsec msec).2).1.deadline = 0 ∧
     Timer.isRunning (Timer.stop (Timer.start t d sec nsec msec).1
        (Timer.start t d sec nsec msec).2).1 = false ∧
     t.id ∉ (Timer.stop (Timer.start t d sec nsec msec).1
        (Timer.start t d sec nsec msec).2).2.timers ∧
     ∀ (deadlineOf : Nat → Nat) (now : Nat),
       t.id ∉ (Timer.stop (Timer.start t d sec nsec msec).1
          (Timer.start t d sec nsec msec).2).2.expiredTimers deadlineOf now) ∧
    (∀ sec2 nsec2 msec2 : Nat,
      (Timer.start (Timer.start t d sec nsec msec).1
          (Timer.start t d sec nsec msec).2 sec2 nsec2 msec2).1.deadline =
        (sec2 * 1000000000 + nsec2 + msec2 * 1000000) % U64) := by
  have hdl : (Timer.start t d sec nsec msec).1.deadline =
      sec * 1000000000 + nsec + msec * 1000000 := by
    simp only [Timer.start]
    exact Nat.mod_eq_of_lt hov
  have hnz : (Timer.start t d sec nsec msec).1.deadline ≠ 0 := by
    rw [hdl]; omega
  refine ⟨hdl, ?_, ?_, ⟨rfl, rfl, ?_, ?_⟩, ?_⟩
  · rw [hdl]
    have : msec ≤ msec * 1000000 := Nat.le_mul_of_pos_right msec (by omega)
    omega
  · simp [Timer.isRunning, hnz]
  · simp [Timer.stop, Timer.start, EventDispatcher.unregisterTimer, List.mem_filter]
  · intro deadlineOf now
    simp [Timer.stop, Timer.start, EventDispatcher.unregisterTimer,
          EventDispatcher.expiredTimers, List.mem_filter]
  · intro sec2 nsec2 msec2
    rfl

/-- Witness for C8 at a concrete clock sample and interval. -/
theorem timer_start_stop_spec_witness :
    (0 < 7 * 1000000000 + 500 ∧ 7 * 1000000000 + 500 + 30 * 1000000 < U64) ∧
    (Timer.start ⟨4, 0, 0⟩ ⟨[]⟩ 7 500 30).1.deadline = 7 * 1000000000 + 500 + 30 * 1000000 ∧
    Timer.isRunning (Timer.start ⟨4, 0, 0⟩ ⟨[]⟩ 7 500 30).1 = true ∧
    (Timer.stop (Timer.start ⟨4, 0, 0⟩ ⟨[]⟩ 7 500 30).1
       (Timer.start ⟨4, 0, 0⟩ ⟨[]⟩ 7 500 30).2).1.deadline = 0 ∧
    (4 : Nat) ∉ (Timer.stop (Timer.start ⟨4, 0, 0⟩ ⟨[]⟩ 7 500 30).1
       (Timer.start ⟨4, 0, 0⟩ ⟨[]⟩ 7 500 30).2).2.expiredTimers (fun _ => 0) 99999999999 := by
  have h := timer_start_stop_spec ⟨4, 0, 0⟩ ⟨[]⟩ 7 500 30 (by decide) (by decide)
  exact ⟨⟨by decide, by decide⟩, h.1, h.2.2.1, h.2.2.2.1.1, h.2.2.2.1.2.2.2 (fun _ => 0) 99999999999⟩

/-- C9: a `Timer` receiving a `ThreadMoveMessage` while armed first
unregisters from the old thread's dispatcher and posts its re-registration
as a queued invocation (whose later execution registers it on the new
thread's dispatcher); the deadline — and hence `isRunning()` — is
unchanged; an unarmed timer performs no unregistration or re-registration. -/
theorem timer_message_threadMove (t : TimerState) (oldDisp : EventDispatcher)
    (q : List QueuedInvocation) :
    (t.deadline ≠ 0 →
      Timer.message t oldDisp q MessageType.threadMove =
        (t, oldDisp.unregisterTimer t.id, q ++ [QueuedInvocation.registerTimer t.id]) ∧
      t.id ∉ (oldDisp.unregisterTimer t.id).timers ∧
      Timer.isRunning (Timer.message t oldDisp q MessageType.threadMove).1 =
        Timer.isRunning t ∧
      ∀ newDisp : EventDispatcher,
        t.id ∈ (runQueuedInvocation newDisp (QueuedInvocation.registerTimer t.id)).timers) ∧
    (t.deadline = 0 →
      Timer.message t oldDisp q MessageType.threadMove = (t, oldDisp, q)) := by
  constructor
  · intro harm
    have heq : Timer.message t oldDisp q MessageType.threadMove =
        (t, oldDisp.unregisterTimer t.id, q ++ [QueuedInvocation.registerTimer t.id]) := by
      simp [Timer.message, harm]
    refine ⟨heq, ?_, by rw [heq], ?_⟩
    · simp [EventDispatcher.unregisterTimer, List.mem_filter]
    · intro newDisp
      by_cases hmem : t.id ∈ newDisp.timers
      · simpa [runQueuedInvocation, EventDispatcher.registerTimer, hmem] using hmem
      · simp [runQueuedInvocation, EventDispatcher.registerTimer, hmem]
  · intro hidle
    simp [Timer.message, hidle]

/-- Witness for C9: an armed timer (deadline 5000000) moving threads, and an
idle timer staying put. -/
theorem timer_message_threadMove_witness :
    ((⟨9, 5, 5000000⟩ : TimerState).deadline ≠ 0 ∧
     (⟨9, 5, 0⟩ : TimerState).deadline = 0) ∧
    Timer.message ⟨9, 5, 5000000⟩ ⟨[9, 3]⟩ [] MessageType.threadMove =
      (⟨9, 5, 5000000⟩, EventDispatcher.unregisterTimer ⟨[9, 3]⟩ 9,
       [QueuedInvocation.registerTimer 9]) ∧
    (9 : Nat) ∈ (runQueuedInvocation ⟨[]⟩ (QueuedInvocation.registerTimer 9)).timers ∧
    Timer.message ⟨9, 5, 0⟩ ⟨[9, 3]⟩ [] MessageType.threadMove =
      (⟨9, 5, 0⟩, ⟨[9, 3]⟩, []) := by
  have h1 := (timer_message_threadMove ⟨9, 5, 5000000⟩ ⟨[9, 3]⟩ []).1 (by decide)
  have h2 := (timer_message_threadMove ⟨9, 5, 0⟩ ⟨[9, 3]⟩ []).2 rfl
  exact ⟨⟨by decide, rfl⟩, by simpa using h1.1, h1.2.2.2 ⟨[]⟩, h2⟩

/-- C5 (code bug): when `imguMediaDev_->disableLinks()` fails,
`PipelineHandlerIPU3::match` jumps to the `error:` label and evaluates
`return ret == 0` with the local `ret` never having been assigned; the
result depends on the indeterminate stack value `ret` happens to hold.  With
residual value 0 match returns true on this failing path, contradicting the
claim that it returns false whenever a step fails; with residual value 1 it
returns false.  All earlier devices were found, acquired and opened, CIO2
`disableLinks` succeeded, and ImgU `disableLinks` failed with `-EINVAL`. -/
theorem ipu3Match_uninitialised_ret :
    PipelineHandlerIPU3.ipu3Match ⟨true, true, 0, 0, 0, -EINVAL, 0⟩ 0 = true ∧
    PipelineHandlerIPU3.ipu3Match ⟨true, true, 0, 0, 0, -EINVAL, 0⟩ 1 = false := by
  constructor <;> rfl

/-- C4 counterexample: queueing a request holding no buffer attached to the
ingress stream makes `PipelineHandlerIPU3::queueRequest` return `-ENOENT`,
which is nonzero negative but NOT one of the five documented error codes
(invalid-argument, invalid-state, no-device, no-memory, busy); the FIFO is
unchanged. -/
theorem queueRequest_missing_buffer_counterexample :
    (PipelineHandlerIPU3.queueRequest ⟨[], []⟩ ⟨1, [], []⟩ 0).1 = -ENOENT ∧
    (PipelineHandlerIPU3.queueRequest ⟨[], []⟩ ⟨1, [], []⟩ 0).1 < 0 ∧
    -ENOENT ∉ documentedErrorCodes ∧
    (PipelineHandlerIPU3.queueRequest ⟨[], []⟩ ⟨1, [], []⟩ 0).2 =
      (⟨[], []⟩ : CameraRequestState) := by
  refine ⟨rfl, by decide, by decide, rfl⟩

/-- C4 (amended): when the request holds no buffer attached to the ingress
stream, `queueRequest` fails with the nonzero negative code `-ENOENT` (not
among the five documented codes); on any failure — missing buffer or the
ingress device refusing the buffer — the per-camera queued FIFO is unchanged
and no request is appended; on success the request is appended. -/
theorem queueRequest_failure_fifo (st : CameraRequestState) (req : IPU3Request)
    (queueBufferRet : Int) :
    (req.findBuffer IPU3_STREAM = none →
      PipelineHandlerIPU3.queueRequest st req queueBufferRet = (-ENOENT, st) ∧
      (-ENOENT : Int) < 0 ∧ -ENOENT ∉ documentedErrorCodes) ∧
    ((PipelineHandlerIPU3.queueRequest st req queueBufferRet).1 ≠ 0 →
      (PipelineHandlerIPU3.queueRequest st req queueBufferRet).2 = st) ∧
    (req.findBuffer IPU3_STREAM ≠ none → 0 ≤ queueBufferRet →
      PipelineHandlerIPU3.queueRequest st req queueBufferRet =
        (0, { st with queuedRequests := st.queuedRequests ++ [req] })) := by
  by_cases hfb : req.findBuffer IPU3_STREAM = none
  · refine ⟨fun _ => ⟨?_, by decide, by decide⟩, ?_, fun h => absurd hfb h⟩
    · simp [PipelineHandlerIPU3.queueRequest, hfb]
    · intro _
      simp [PipelineHandlerIPU3.queueRequest, hfb]
  · obtain ⟨b, hb⟩ := Option.ne_none_iff_exists'.mp hfb
    refine ⟨fun h => absurd h hfb, ?_, fun _ hq => ?_⟩
    · intro hne
      by_cases hqlt : queueBufferRet < 0
      · simp [PipelineHandlerIPU3.queueRequest, hb, hqlt]
      · exfalso
        apply hne
        simp [PipelineHandlerIPU3.queueRequest, hb, hqlt]
    · simp [PipelineHandlerIPU3.queueRequest, hb, not_lt.mpr hq]

/-- Witness for C4 (amended): a request with no buffer is rejected with
`-ENOENT` leaving the FIFO unchanged, and a device refusal (`-EBUSY`) leaves
the FIFO unchanged. -/
theorem queueRequest_failure_fifo_witness :
    ((⟨1, [], []⟩ : IPU3Request).findBuffer IPU3_STREAM = none ∧
     (PipelineHandlerIPU3.queueRequest ⟨[], []⟩ ⟨2, [(IPU3_STREAM, 7)], [IPU3_STREAM]⟩
        (-EBUSY)).1 ≠ 0) ∧
    PipelineHandlerIPU3.queueRequest ⟨[], []⟩ ⟨1, [], []⟩ 3 = (-ENOENT, ⟨[], []⟩) ∧
    (PipelineHandlerIPU3.queueRequest ⟨[], []⟩ ⟨2, [(IPU3_STREAM, 7)], [IPU3_STREAM]⟩
       (-EBUSY)).2 = (⟨[], []⟩ : CameraRequestState) :=
  ⟨⟨by decide, by decide⟩,
   ((queueRequest_failure_fifo ⟨[], []⟩ ⟨1, [], []⟩ 3).1 (by decide)).1,
   (queueRequest_failure_fifo ⟨[], []⟩ ⟨2, [(IPU3_STREAM, 7)], [IPU3_STREAM]⟩
      (-EBUSY)).2.1 (by decide)⟩

/-- C10: given both ImgU instances initialise,
`PipelineHandlerIPU3::registerCameras` scans the CSI-2 receivers 0..3 in
increasing order, registers exactly the first (at most two) receivers whose
CIO2 init succeeds — skipping failed inits without aborting — assigning ImgU
instance 0 to the first registered camera and 1 to the second, and returns
`-ENODEV` exactly when no camera was registered and 0 otherwise. -/
theorem registerCameras_scan (imgu0InitRet imgu1InitRet : Int) (f : Nat → Int)
    (h0i : imgu0InitRet = 0) (h1i : imgu1InitRet = 0) :
    (PipelineHandlerIPU3.registerCameras imgu0InitRet imgu1InitRet f).2 =
      ((List.filter (fun id => f id = 0) [0, 1, 2, 3]).take 2).zip [0, 1] ∧
    (PipelineHandlerIPU3.registerCameras imgu0InitRet imgu1InitRet f).2.length ≤ 2 ∧
    ((PipelineHandlerIPU3.registerCameras imgu0InitRet imgu1InitRet f).1 = -ENODEV ↔
      (PipelineHandlerIPU3.registerCameras imgu0InitRet imgu1InitRet f).2 = []) ∧
    ((PipelineHandlerIPU3.registerCameras imgu0InitRet imgu1InitRet f).2 ≠ [] →
      (PipelineHandlerIPU3.registerCameras imgu0InitRet imgu1InitRet f).1 = 0) := by
  subst h0i h1i
  rcases em (f 0 = 0) with h0 | h0 <;> rcases em (f 1 = 0) with h1 | h1 <;>
    rcases em (f 2 = 0) with h2 | h2 <;> rcases em (f 3 = 0) with h3 | h3 <;>
    simp [PipelineHandlerIPU3.registerCameras, registerLoop, h0, h1, h2, h3,
          List.filter_cons, ENODEV]

/-- Witness for C10: CIO2 inits fail on receivers 0 and 2; receivers 1 and 3
are registered with ImgU instances 0 and 1 and the return code is 0. -/
theorem registerCameras_scan_witness :
    ((0 : Int) = 0 ∧ (0 : Int) = 0) ∧
    (PipelineHandlerIPU3.registerCameras 0 0
       (fun id => if id = 0 ∨ id = 2 then -ENODEV else 0)).2 = [(1, 0), (3, 1)] ∧
    (PipelineHandlerIPU3.registerCameras 0 0
       (fun id => if id = 0 ∨ id = 2 then -ENODEV else 0)).1 = 0 := by
  have h := registerCameras_scan 0 0
    (fun id => if id = 0 ∨ id = 2 then -ENODEV else 0) rfl rfl
  refine ⟨⟨rfl, rfl⟩, ?_, h.2.2.2 (by rw [h.1]; decide)⟩
  rw [h.1]
  decide

/-- One `bufferReady` invocation preserves the concatenation of the already
completed request ids with the ids still queued. -/
theorem bufferReady_inv (sid : Nat) (st : CameraRequestState) :
    completedIds (IPU3CameraData.bufferReady st sid).trace ++
      (IPU3CameraData.bufferReady st sid).queuedRequests.map (fun r => r.id) =
    completedIds st.trace ++ st.queuedRequests.map (fun r => r.id) := by
  rcases hq : st.queuedRequests with _ | ⟨req, rest⟩
  · simp [IPU3CameraData.bufferReady, hq]
  · by_cases hp : req.pendingStreams.erase sid = []
    · simp [IPU3CameraData.bufferReady, hq, hp, completedIds, List.filterMap_append]
    · simp [IPU3CameraData.bufferReady, hq, hp, completedIds, List.filterMap_append]

/-- A run of `bufferReady` invocations preserves the concatenation of the
completed request ids with the ids still queued. -/
theorem runBufferReady_inv (streamIds : List Nat) :
    ∀ st : CameraRequestState,
      completedIds (runBufferReady st streamIds).trace ++
        (runBufferReady st streamIds).queuedRequests.map (fun r => r.id) =
      completedIds st.trace ++ st.queuedRequests.map (fun r => r.id) := by
  induction streamIds with
  | nil => intro st; rfl
  | cons sid rest ih =>
    intro st
    have hstep : runBufferReady st (sid :: rest) =
        runBufferReady (IPU3CameraData.bufferReady st sid) rest := rfl
    rw [hstep, ih (IPU3CameraData.bufferReady st sid), bufferReady_inv]

/-- C3: each invocation of the per-camera completion slot completes the
request at the head of the queued FIFO — emitting `bufferCompleted` for it
and, exactly when every stream of the request now has a completed buffer,
popping it and emitting `requestCompleted` right after — and consequently
over any run of completions the `requestCompleted` order is an initial
segment of (equals, once all requests complete) the order in which the
requests were queued. -/
theorem bufferReady_fifo (st : CameraRequestState) (sid : Nat)
    (req : IPU3Request) (rest : List IPU3Request)
    (h : st.queuedRequests = req :: rest) :
    (req.pendingStreams.erase sid = [] →
      IPU3CameraData.bufferReady st sid =
        ⟨rest, st.trace ++ [CameraEvent.bufferCompleted req.id sid,
                            CameraEvent.requestCompleted req.id]⟩) ∧
    (req.pendingStreams.erase sid ≠ [] →
      IPU3CameraData.bufferReady st sid =
        ⟨{ req with pendingStreams := req.pendingStreams.erase sid } :: rest,
          st.trace ++ [CameraEvent.bufferCompleted req.id sid]⟩) ∧
    (∀ (reqs : List IPU3Request) (streamIds : List Nat),
      ∃ stillQueued : List Nat,
        completedIds (runBufferReady ⟨reqs, []⟩ streamIds).trace ++ stillQueued =
          reqs.map (fun r => r.id)) := by
  refine ⟨?_, ?_, ?_⟩
  · intro hp
    simp [IPU3CameraData.bufferReady, h, hp]
  · intro hp
    simp [IPU3CameraData.bufferReady, h, hp]
  · intro reqs streamIds
    refine ⟨(runBufferReady ⟨reqs, []⟩ streamIds).queuedRequests.map (fun r => r.id), ?_⟩
    have hinv := runBufferReady_inv streamIds ⟨reqs, []⟩
    simpa [completedIds] using hinv

/-- Witness for C3: two single-stream requests queued and two buffer
completions; the first invocation completes request 1, the trace shows
`bufferCompleted` before `requestCompleted`, and the completed order [1, 2]
equals the queued order. -/
theorem bufferReady_fifo_witness :
    ((⟨[⟨1, [(0, 5)], [0]⟩], []⟩ : CameraRequestState).queuedRequests =
       [⟨1, [(0, 5)], [0]⟩] ∧
     (⟨1, [(0, 5)], [0]⟩ : IPU3Request).pendingStreams.erase 0 = []) ∧
    IPU3CameraData.bufferReady ⟨[⟨1, [(0, 5)], [0]⟩], []⟩ 0 =
      ⟨[], [CameraEvent.bufferCompleted 1 0, CameraEvent.requestCompleted 1]⟩ ∧
    (∃ stillQueued : List Nat,
      completedIds (runBufferReady
          ⟨[⟨1, [(0, 5)], [0]⟩, ⟨2, [(0, 6)], [0]⟩], []⟩ [0, 0]).trace ++ stillQueued =
        [1, 2]) := by
  have h := bufferReady_fifo ⟨[⟨1, [(0, 5)], [0]⟩], []⟩ 0 ⟨1, [(0, 5)], [0]⟩ [] rfl
  refine ⟨⟨rfl, by decide⟩, ?_, ?_⟩
  · simpa using h.1 (by decide)
  · simpa using h.2.2 [⟨1, [(0, 5)], [0]⟩, ⟨2, [(0, 6)], [0]⟩] [0, 0]

/-- The inner size loop of the selection equals a fold of `selectAccStep`
over the qualified sizes, paired with the media-bus code. -/
theorem foldl_selectSizeStep_eq (cfg : StreamConfiguration) (m code : Nat) :
    ∀ (sizes : List SizeRange) (acc : Nat × V4L2SubdeviceFormat),
      sizes.foldl (selectSizeStep cfg m code) acc =
        ((sizes.filter
            (fun s => cfg.width ≤ s.maxWidth ∧ cfg.height ≤ s.maxHeight)).map
            (fun s => (code, s))).foldl (selectAccStep m) acc := by
  intro sizes
  induction sizes with
  | nil => intro acc; rfl
  | cons s rest ih =>
    intro acc
    rw [List.foldl_cons, List.filter_cons]
    by_cases hqual : s.maxWidth < cfg.width ∨ s.maxHeight < cfg.height
    · rw [if_neg (by simp only [decide_eq_true_eq]; omega)]
      have hstep : selectSizeStep cfg m code acc s = acc := by
        simp only [selectSizeStep]
        rw [if_pos hqual]
      rw [hstep]
      exact ih acc
    · rw [if_pos (by simp only [decide_eq_true_eq]; omega)]
      have hstep : selectSizeStep cfg m code acc s = selectAccStep m acc (code, s) := by
        simp only [selectSizeStep]
        rw [if_neg hqual]
        rfl
      rw [hstep, List.map_cons, List.foldl_cons]
      exact ih (selectAccStep m acc (code, s))

/-- The whole selection loop equals a fold of `selectAccStep` over the
candidate list, started at `(~0, zero format)`. -/
theorem cio2SelectFormat_eq_foldl (formats : List (Nat × List SizeRange))
    (cfg : StreamConfiguration) :
    cio2SelectFormat formats cfg =
      (cio2Candidates formats cfg).foldl
        (selectAccStep (cfg.width * cfg.height % U32)) (U32 - 1, ⟨0, 0, 0⟩) := by
  have key : ∀ (fs : List (Nat × List SizeRange)) (acc : Nat × V4L2SubdeviceFormat),
      fs.foldl (selectFmtStep cfg (cfg.width * cfg.height % U32)) acc =
        (cio2Candidates fs cfg).foldl
          (selectAccStep (cfg.width * cfg.height % U32)) acc := by
    intro fs
    induction fs with
    | nil => intro acc; rfl
    | cons fmt rest ih =>
      intro acc
      rw [List.foldl_cons]
      by_cases hvalid : CIO2Device.mediaBusToFormat fmt.1 < 0
      · have h1 : selectFmtStep cfg (cfg.width * cfg.height % U32) acc fmt = acc := by
          simp only [selectFmtStep]
          rw [if_pos hvalid]
        have h2 : cio2Candidates (fmt :: rest) cfg = cio2Candidates rest cfg := by
          simp only [cio2Candidates, List.foldr_cons]
          rw [if_pos hvalid]
        rw [h1, h2]
        exact ih acc
      · have h1 : selectFmtStep cfg (cfg.width * cfg.height % U32) acc fmt =
            fmt.2.foldl (selectSizeStep cfg (cfg.width * cfg.height % U32) fmt.1) acc := by
          simp only [selectFmtStep]
          rw [if_neg hvalid]
        have h2 : cio2Candidates (fmt :: rest) cfg =
            ((fmt.2.filter
                (fun s => cfg.width ≤ s.maxWidth ∧ cfg.height ≤ s.maxHeight)).map
                (fun s => (fmt.1, s))) ++ cio2Candidates rest cfg := by
          simp only [cio2Candidates, List.foldr_cons]
          rw [if_neg hvalid]
        rw [h1, h2, foldl_selectSizeStep_eq cfg _ fmt.1 fmt.2 acc, List.foldl_append]
        exact ih _
  simpa only [cio2SelectFormat] using key formats (U32 - 1, ⟨0, 0, 0⟩)

/-- The fold of `selectAccStep` either keeps the accumulator (every
candidate's diff at least the incumbent best) or returns the first candidate
of minimal diff, strictly better than the incumbent: every earlier candidate
has strictly larger diff and no candidate has a smaller one. -/
theorem foldl_selectAccStep_spec (m : Nat) :
    ∀ (l : List (Nat × SizeRange)) (acc : Nat × V4L2SubdeviceFormat),
      (l.foldl (selectAccStep m) acc = acc ∧
        ∀ c ∈ l, acc.1 ≤ cio2Diff m c.2) ∨
      (∃ l₁ c l₂, l = l₁ ++ c :: l₂ ∧
        l.foldl (selectAccStep m) acc =
          (cio2Diff m c.2, ⟨c.2.maxWidth, c.2.maxHeight, c.1⟩) ∧
        cio2Diff m c.2 < acc.1 ∧
        (∀ e ∈ l₁, cio2Diff m c.2 < cio2Diff m e.2) ∧
        (∀ e ∈ l, cio2Diff m c.2 ≤ cio2Diff m e.2)) := by
  intro l
  induction l with
  | nil => intro acc; exact Or.inl ⟨rfl, by simp⟩
  | cons c0 t ih =>
    intro acc
    rw [List.foldl_cons]
    by_cases hskip : acc.1 ≤ cio2Diff m c0.2
    · have hstep : selectAccStep m acc c0 = acc := by
        simp only [selectAccStep]
        rw [if_pos hskip]
      rw [hstep]
      rcases ih acc with ⟨heq, hall⟩ | ⟨l₁, c, l₂, hdec, heq, hlt, hbef, hmin⟩
      · refine Or.inl ⟨heq, ?_⟩
        intro e he
        rcases List.mem_cons.mp he with rfl | he
        · exact hskip
        · exact hall e he
      · refine Or.inr ⟨c0 :: l₁, c, l₂, by rw [hdec]; rfl, heq, hlt, ?_, ?_⟩
        · intro e he
          rcases List.mem_cons.mp he with rfl | he
          · exact lt_of_lt_of_le hlt hskip
          · exact hbef e he
        · intro e he
          rcases List.mem_cons.mp he with rfl | he
          · exact le_of_lt (lt_of_lt_of_le hlt hskip)
          · exact hmin e he
    · push_neg at hskip
      have hstep : selectAccStep m acc c0 =
          (cio2Diff m c0.2, ⟨c0.2.maxWidth, c0.2.maxHeight, c0.1⟩) := by
        simp only [selectAccStep]
        rw [if_neg (not_le.mpr hskip)]
      rw [hstep]
      rcases ih (cio2Diff m c0.2, ⟨c0.2.maxWidth, c0.2.maxHeight, c0.1⟩) with
        ⟨heq, hall⟩ | ⟨l₁, c, l₂, hdec, heq, hlt, hbef, hmin⟩
      · refine Or.inr ⟨[], c0, t, rfl, heq, hskip, by simp, ?_⟩
        intro e he
        rcases List.mem_cons.mp he with rfl | he
        · exact le_refl _
        · exact hall e he
      · refine Or.inr ⟨c0 :: l₁, c, l₂, by rw [hdec]; rfl, heq, lt_trans hlt hskip, ?_, ?_⟩
        · intro e he
          rcases List.mem_cons.mp he with rfl | he
          · exact hlt
          · exact hbef e he
        · intro e he
          rcases List.mem_cons.mp he with rfl | he
          · exact le_of_lt hlt
          · exact hmin e he

/-- The inner loop of the init maximum-size scan either keeps the
accumulator or returns a pair achieved by one of the scanned sizes. -/
theorem maxSizeSizeStep_achieves (code : Nat) :
    ∀ (sizes : List SizeRange) (acc : Size × Nat),
      sizes.foldl (maxSizeSizeStep code) acc = acc ∨
      ∃ s ∈ sizes,
        (sizes.foldl (maxSizeSizeStep code) acc).1 = ⟨s.maxWidth, s.maxHeight⟩ := by
  intro sizes
  induction sizes with
  | nil => intro acc; exact Or.inl rfl
  | cons s t ih =>
    intro acc
    rw [List.foldl_cons]
    by_cases hupd : acc.1.width < s.maxWidth ∧ acc.1.height < s.maxHeight
    · have hstep : maxSizeSizeStep code acc s =
          (⟨s.maxWidth, s.maxHeight⟩, intToU32 (CIO2Device.mediaBusToFormat code)) := by
        simp only [maxSizeSizeStep]
        rw [if_pos hupd]
      rw [hstep]
      rcases ih (⟨s.maxWidth, s.maxHeight⟩, intToU32 (CIO2Device.mediaBusToFormat code)) with
        heq | ⟨s', hs', hres⟩
      · refine Or.inr ⟨s, List.mem_cons_self s t, ?_⟩
        rw [heq]
      · exact Or.inr ⟨s', List.mem_cons_of_mem _ hs', hres⟩
    · have hstep : maxSizeSizeStep code acc s = acc := by
        simp only [maxSizeSizeStep]
        rw [if_neg hupd]
      rw [hstep]
      rcases ih acc with heq | ⟨s', hs', hres⟩
      · exact Or.inl heq
      · exact Or.inr ⟨s', List.mem_cons_of_mem _ hs', hres⟩

/-- The init maximum-size scan either keeps the accumulator or returns a
size achieved by a scanned size belonging to a CIO2-consumable format. -/
theorem cio2MaxSizeFold_achieves :
    ∀ (formats : List (Nat × List SizeRange)) (acc : Size × Nat),
      formats.foldl maxSizeFmtStep acc = acc ∨
      ∃ fmt ∈ formats, ¬ CIO2Device.mediaBusToFormat fmt.1 < 0 ∧
        ∃ s ∈ fmt.2, (formats.foldl maxSizeFmtStep acc).1 = ⟨s.maxWidth, s.maxHeight⟩ := by
  intro formats
  induction formats with
  | nil => intro acc; exact Or.inl rfl
  | cons fmt rest ih =>
    intro acc
    rw [List.foldl_cons]
    by_cases hvalid : CIO2Device.mediaBusToFormat fmt.1 < 0
    · have hstep : maxSizeFmtStep acc fmt = acc := by
        simp only [maxSizeFmtStep]
        rw [if_pos hvalid]
      rw [hstep]
      rcases ih acc with heq | ⟨f', hf', hv', s', hs', hres⟩
      · exact Or.inl heq
      · exact Or.inr ⟨f', List.mem_cons_of_mem _ hf', hv', s', hs', hres⟩
    · have hstep : maxSizeFmtStep acc fmt = fmt.2.foldl (maxSizeSizeStep fmt.1) acc := by
        simp only [maxSizeFmtStep]
        rw [if_neg hvalid]
      rw [hstep]
      rcases ih (fmt.2.foldl (maxSizeSizeStep fmt.1) acc) with heq | ⟨f', hf', hv', s', hs', hres⟩
      · rw [heq]
        rcases maxSizeSizeStep_achieves fmt.1 fmt.2 acc with heq2 | ⟨s', hs', hres⟩
        · exact Or.inl heq2
        · exact Or.inr ⟨fmt, List.mem_cons_self fmt rest, hvalid, s', hs', hres⟩
      · exact Or.inr ⟨f', List.mem_cons_of_mem _ hf', hv', s', hs', hres⟩

/-- A candidate comes from the sensor's format list and covers the request
in both dimensions. -/
theorem cio2Candidates_sub (cfg : StreamConfiguration) (c : Nat × SizeRange) :
    ∀ formats : List (Nat × List SizeRange),
      c ∈ cio2Candidates formats cfg →
      (∃ fmt ∈ formats, fmt.1 = c.1 ∧ c.2 ∈ fmt.2) ∧
      cfg.width ≤ c.2.maxWidth ∧ cfg.height ≤ c.2.maxHeight := by
  intro formats
  induction formats with
  | nil => intro hc; simp [cio2Candidates] at hc
  | cons fmt rest ih =>
    intro hc
    by_cases hvalid : CIO2Device.mediaBusToFormat fmt.1 < 0
    · have hcc : cio2Candidates (fmt :: rest) cfg = cio2Candidates rest cfg := by
        simp only [cio2Candidates, List.foldr_cons]
        rw [if_pos hvalid]
      rw [hcc] at hc
      obtain ⟨⟨f, hf, hfeq, hmem⟩, hw, hh⟩ := ih hc
      exact ⟨⟨f, List.mem_cons_of_mem _ hf, hfeq, hmem⟩, hw, hh⟩
    · have hcc : cio2Candidates (fmt :: rest) cfg =
          ((fmt.2.filter
              (fun s => cfg.width ≤ s.maxWidth ∧ cfg.height ≤ s.maxHeight)).map
              (fun s => (fmt.1, s))) ++ cio2Candidates rest cfg := by
        simp only [cio2Candidates, List.foldr_cons]
        rw [if_neg hvalid]
      rw [hcc] at hc
      rcases List.mem_append.mp hc with hin | hin
      · rcases List.mem_map.mp hin with ⟨s, hsmem, hseq⟩
        rcases List.mem_filter.mp hsmem with ⟨hsmem2, hcond⟩
        have hcond2 : cfg.width ≤ s.maxWidth ∧ cfg.height ≤ s.maxHeight := by
          simpa using hcond
        refine ⟨⟨fmt, List.mem_cons_self fmt rest, ?_, ?_⟩, ?_, ?_⟩ <;> rw [← hseq]
        · exact hsmem2
        · exact hcond2.1
        · exact hcond2.2
      · obtain ⟨⟨f, hf, hfeq, hmem⟩, hw, hh⟩ := ih hin
        exact ⟨⟨f, List.mem_cons_of_mem _ hf, hfeq, hmem⟩, hw, hh⟩

/-- A qualified size of a CIO2-consumable sensor format is a candidate. -/
theorem cio2Candidates_mem (cfg : StreamConfiguration) (code : Nat) (s : SizeRange) :
    ∀ (formats : List (Nat × List SizeRange)) (fmt : Nat × List SizeRange),
      fmt ∈ formats → fmt.1 = code → s ∈ fmt.2 →
      ¬ CIO2Device.mediaBusToFormat code < 0 →
      cfg.width ≤ s.maxWidth → cfg.height ≤ s.maxHeight →
      (code, s) ∈ cio2Candidates formats cfg := by
  intro formats
  induction formats with
  | nil =>
    intro fmt hf
    simp at hf
  | cons f rest ih =>
    intro fmt hf hfeq hs hv hw hh
    rcases List.mem_cons.mp hf with rfl | hf
    · have hvalid : ¬ CIO2Device.mediaBusToFormat fmt.1 < 0 := by
        rw [hfeq]; exact hv
      have hcc : cio2Candidates (fmt :: rest) cfg =
          ((fmt.2.filter
              (fun s => cfg.width ≤ s.maxWidth ∧ cfg.height ≤ s.maxHeight)).map
              (fun s => (fmt.1, s))) ++ cio2Candidates rest cfg := by
        simp only [cio2Candidates, List.foldr_cons]
        rw [if_neg hvalid]
      rw [hcc]
      refine List.mem_append_left _ (List.mem_map.mpr ⟨s, List.mem_filter.mpr ⟨hs, ?_⟩, ?_⟩)
      · simp [hw, hh]
      · rw [hfeq]
    · by_cases hvalid : CIO2Device.mediaBusToFormat f.1 < 0
      · have hcc : cio2Candidates (f :: rest) cfg = cio2Candidates rest cfg := by
          simp only [cio2Candidates, List.foldr_cons]
          rw [if_pos hvalid]
        rw [hcc]
        exact ih fmt hf hfeq hs hv hw hh
      · have hcc : cio2Candidates (f :: rest) cfg =
            ((f.2.filter
                (fun s => cfg.width ≤ s.maxWidth ∧ cfg.height ≤ s.maxHeight)).map
                (fun s => (f.1, s))) ++ cio2Candidates rest cfg := by
          simp only [cio2Candidates, List.foldr_cons]
          rw [if_neg hvalid]
        rw [hcc]
        exact List.mem_append_right _ (ih fmt hf hfeq hs hv hw hh)

/-- When the requested size passes the oversize check against the
init-cached maximum, the candidate list contains an entry achieving that
maximum. -/
theorem cio2Candidates_nonempty (formats : List (Nat × List SizeRange))
    (cfg : StreamConfiguration)
    (hwpos : 0 < cfg.width)
    (hwle : cfg.width ≤ (cio2ComputeMaxSize formats).1.width)
    (hhle : cfg.height ≤ (cio2ComputeMaxSize formats).1.height) :
    ∃ c ∈ cio2Candidates formats cfg,
      c.2.maxWidth = (cio2ComputeMaxSize formats).1.width ∧
      c.2.maxHeight = (cio2ComputeMaxSize formats).1.height := by
  rcases cio2MaxSizeFold_achieves formats (⟨0, 0⟩, 0) with heq | ⟨fmt, hfmt, hv, s, hs, hres⟩
  · exfalso
    have hz : (cio2ComputeMaxSize formats).1.width = 0 := by
      rw [show cio2ComputeMaxSize formats = formats.foldl maxSizeFmtStep (⟨0, 0⟩, 0) from rfl,
          heq]
    omega
  · have hres2 : (cio2ComputeMaxSize formats).1 = ⟨s.maxWidth, s.maxHeight⟩ := hres
    have hwle2 : cfg.width ≤ s.maxWidth := by rw [hres2] at hwle; exact hwle
    have hhle2 : cfg.height ≤ s.maxHeight := by rw [hres2] at hhle; exact hhle
    refine ⟨(fmt.1, s), cio2Candidates_mem cfg fmt.1 s formats fmt hfmt rfl hs hv hwle2 hhle2,
            ?_, ?_⟩
    · rw [hres2]
    · rw [hres2]

/-- Under realistic size bounds the machine `diff` equals the mathematical
excess area. -/
theorem cio2Diff_eq_excess (cfg : StreamConfiguration) (s : SizeRange)
    (hw : cfg.width ≤ s.maxWidth) (hh : cfg.height ≤ s.maxHeight)
    (hbound : s.maxWidth * s.maxHeight < U32) :
    cio2Diff (cfg.width * cfg.height % U32) s = excessArea cfg s := by
  have hle : cfg.width * cfg.height ≤ s.maxWidth * s.maxHeight := Nat.mul_le_mul hw hh
  have himg : cfg.width * cfg.height < U32 := lt_of_le_of_lt hle hbound
  simp only [cio2Diff, excessArea, U32] at *
  omega

/-- On the success path (alignment and oversize checks passing)
`configureStreams` applies the selected sensor format to the sensor, the
CSI-2 receiver and the CIO2 output, configures the ImgU input with the CIO2
output format, and propagates the requested size to the ImgU output,
viewfinder and stat nodes. -/
theorem configureStreams_success_shape (cio2 : CIO2State) (imgu : ImgUState)
    (cfg : StreamConfiguration)
    (h8 : cfg.width % 8 = 0) (h4 : cfg.height % 4 = 0)
    (hW : cfg.width ≤ cio2.maxSize.width) (hH : cfg.height ≤ cio2.maxSize.height) :
    PipelineHandlerIPU3.configureStreams cio2 imgu cfg =
      (0,
       { cio2 with
           sensorFormat := some (cio2SelectFormat cio2.sensorFormats cfg).2,
           csi2Format := some (cio2SelectFormat cio2.sensorFormats cfg).2,
           outputFormat := some
             ⟨(cio2SelectFormat cio2.sensorFormats cfg).2.width,
              (cio2SelectFormat cio2.sensorFormats cfg).2.height,
              intToU32 (CIO2Device.mediaBusToFormat
                (cio2SelectFormat cio2.sensorFormats cfg).2.mbus_code), 1⟩ },
       { imgu with
           inputFormat := some
             ⟨(cio2SelectFormat cio2.sensorFormats cfg).2.width,
              (cio2SelectFormat cio2.sensorFormats cfg).2.height,
              intToU32 (CIO2Device.mediaBusToFormat
                (cio2SelectFormat cio2.sensorFormats cfg).2.mbus_code), 1⟩,
           inputCrop := some
             ⟨0, 0, (cio2SelectFormat cio2.sensorFormats cfg).2.width,
              (cio2SelectFormat cio2.sensorFormats cfg).2.height⟩,
           inputCompose := some
             ⟨0, 0, (cio2SelectFormat cio2.sensorFormats cfg).2.width,
              (cio2SelectFormat cio2.sensorFormats cfg).2.height⟩,
           padFormats := imgu.padFormats ++
             [(ImgUDevice.PAD_INPUT, ⟨cfg.width, cfg.height, MEDIA_BUS_FMT_FIXED⟩),
              (ImgUDevice.PAD_OUTPUT, ⟨cfg.width, cfg.height, MEDIA_BUS_FMT_FIXED⟩),
              (ImgUDevice.PAD_VF, ⟨cfg.width, cfg.height, MEDIA_BUS_FMT_FIXED⟩),
              (ImgUDevice.PAD_STAT, ⟨cfg.width, cfg.height, MEDIA_BUS_FMT_FIXED⟩)],
           outputDevFormat := some ⟨cfg.width, cfg.height, V4L2_PIX_FMT_NV12, 2⟩,
           viewfinderDevFormat := some ⟨cfg.width, cfg.height, V4L2_PIX_FMT_NV12, 2⟩ }) := by
  simp only [PipelineHandlerIPU3.configureStreams]
  rw [if_neg (by omega : ¬(cfg.width % 8 ≠ 0 ∨ cfg.height % 4 ≠ 0)),
      if_neg (by omega : ¬(cio2.maxSize.width < cfg.width ∨ cio2.maxSize.height < cfg.height))]
  simp [CIO2Device.configure, ImgUDevice.configureInput, ImgUDevice.configureOutput,
        ImgUDevice.padOf, List.append_assoc]

/-- C1: for a requested size passing the alignment and oversize checks
(against the maximum cached by `CIO2Device::init` from the same sensor
format list, with positive requested dimensions and sensor areas below
2^32), `configureStreams` selects, among the sensor formats consumable by
the CIO2 whose maximum size covers the request, the first one (in
enumeration order) minimising the excess pixel area, applies it to the
sensor, the CSI-2 receiver and the CIO2 output device, and propagates the
requested size to the ImgU output, viewfinder and statistics nodes. -/
theorem configureStreams_selects_min (cio2 : CIO2State) (imgu : ImgUState)
    (cfg : StreamConfiguration)
    (h8 : cfg.width % 8 = 0) (h4 : cfg.height % 4 = 0)
    (hwpos : 0 < cfg.width) (hhpos : 0 < cfg.height)
    (hinit : cio2.maxSize = (cio2ComputeMaxSize cio2.sensorFormats).1)
    (hW : cfg.width ≤ cio2.maxSize.width) (hH : cfg.height ≤ cio2.maxSize.height)
    (hbound : ∀ fmt ∈ cio2.sensorFormats, ∀ s ∈ fmt.2, s.maxWidth * s.maxHeight < U32) :
    ∃ l₁ c l₂,
      cio2Candidates cio2.sensorFormats cfg = l₁ ++ c :: l₂ ∧
      (∀ e ∈ cio2Candidates cio2.sensorFormats cfg,
        excessArea cfg c.2 ≤ excessArea cfg e.2) ∧
      (∀ e ∈ l₁, excessArea cfg c.2 < excessArea cfg e.2) ∧
      PipelineHandlerIPU3.configureStreams cio2 imgu cfg =
        (0,
         { cio2 with
             sensorFormat := some ⟨c.2.maxWidth, c.2.maxHeight, c.1⟩,
             csi2Format := some ⟨c.2.maxWidth, c.2.maxHeight, c.1⟩,
             outputFormat := some ⟨c.2.maxWidth, c.2.maxHeight,
               intToU32 (CIO2Device.mediaBusToFormat c.1), 1⟩ },
         { imgu with
             inputFormat := some ⟨c.2.maxWidth, c.2.maxHeight,
               intToU32 (CIO2Device.mediaBusToFormat c.1), 1⟩,
             inputCrop := some ⟨0, 0, c.2.maxWidth, c.2.maxHeight⟩,
             inputCompose := some ⟨0, 0, c.2.maxWidth, c.2.maxHeight⟩,
             padFormats := imgu.padFormats ++
               [(ImgUDevice.PAD_INPUT, ⟨cfg.width, cfg.height, MEDIA_BUS_FMT_FIXED⟩),
                (ImgUDevice.PAD_OUTPUT, ⟨cfg.width, cfg.height, MEDIA_BUS_FMT_FIXED⟩),
                (ImgUDevice.PAD_VF, ⟨cfg.width, cfg.height, MEDIA_BUS_FMT_FIXED⟩),
                (ImgUDevice.PAD_STAT, ⟨cfg.width, cfg.height, MEDIA_BUS_FMT_FIXED⟩)],
             outputDevFormat := some ⟨cfg.width, cfg.height, V4L2_PIX_FMT_NV12, 2⟩,
             viewfinderDevFormat := some ⟨cfg.width, cfg.height, V4L2_PIX_FMT_NV12, 2⟩ }) := by
  have hW2 : cfg.width ≤ (cio2ComputeMaxSize cio2.sensorFormats).1.width := by
    rw [← hinit]; exact hW
  have hH2 : cfg.height ≤ (cio2ComputeMaxSize cio2.sensorFormats).1.height := by
    rw [← hinit]; exact hH
  obtain ⟨c₀, hc₀mem, hc₀w, hc₀h⟩ :=
    cio2Candidates_nonempty cio2.sensorFormats cfg hwpos hW2 hH2
  have hdiffs : ∀ e ∈ cio2Candidates cio2.sensorFormats cfg,
      cio2Diff (cfg.width * cfg.height % U32) e.2 = excessArea cfg e.2 := by
    intro e he
    obtain ⟨⟨fmt, hfmt, hfeq, hmem⟩, hwle, hhle⟩ :=
      cio2Candidates_sub cfg e cio2.sensorFormats he
    exact cio2Diff_eq_excess cfg e.2 hwle hhle (hbound fmt hfmt e.2 hmem)
  have hc₀bound : c₀.2.maxWidth * c₀.2.maxHeight < U32 := by
    obtain ⟨⟨fmt, hfmt, hfeq, hmem⟩, _, _⟩ :=
      cio2Candidates_sub cfg c₀ cio2.sensorFormats hc₀mem
    exact hbound fmt hfmt c₀.2 hmem
  have hc₀le : cfg.width * cfg.height ≤ c₀.2.maxWidth * c₀.2.maxHeight := by
    obtain ⟨_, hwle, hhle⟩ := cio2Candidates_sub cfg c₀ cio2.sensorFormats hc₀mem
    exact Nat.mul_le_mul hwle hhle
  have hc₀diff : cio2Diff (cfg.width * cfg.height % U32) c₀.2 < U32 - 1 := by
    rw [hdiffs c₀ hc₀mem]
    have hpos : 0 < cfg.width * cfg.height := Nat.mul_pos hwpos hhpos
    simp only [excessArea]
    omega
  rcases foldl_selectAccStep_spec (cfg.width * cfg.height % U32)
      (cio2Candidates cio2.sensorFormats cfg) (U32 - 1, ⟨0, 0, 0⟩) with
    ⟨heq, hall⟩ | ⟨l₁, c, l₂, hdec, heq, hlt, hbef, hmin⟩
  · exact absurd (hall c₀ hc₀mem) (not_le.mpr hc₀diff)
  · have hcmem : c ∈ cio2Candidates cio2.sensorFormats cfg := by
      rw [hdec]
      exact List.mem_append_right _ (List.mem_cons_self c l₂)
    refine ⟨l₁, c, l₂, hdec, ?_, ?_, ?_⟩
    · intro e he
      have h := hmin e he
      rwa [hdiffs c hcmem, hdiffs e he] at h
    · intro e he
      have hec : e ∈ cio2Candidates cio2.sensorFormats cfg := by
        rw [hdec]
        exact List.mem_append_left _ he
      have h := hbef e he
      rwa [hdiffs c hcmem, hdiffs e hec] at h
    · have hsel : (cio2SelectFormat cio2.sensorFormats cfg).2 =
          ⟨c.2.maxWidth, c.2.maxHeight, c.1⟩ := by
        rw [cio2SelectFormat_eq_foldl, heq]
      rw [configureStreams_success_shape cio2 imgu cfg h8 h4 hW hH, hsel]

/-- Witness for C1: a sensor offering 1280x720 and 1920x1080 on SGRBG10;
a 640x480 request picks 1280x720 (smallest excess area) and propagates. -/
theorem configureStreams_selects_min_witness :
    ((640 : Nat) % 8 = 0 ∧ (480 : Nat) % 4 = 0 ∧ (0 : Nat) < 640 ∧ (0 : Nat) < 480 ∧
     (⟨1920, 1080⟩ : Size) =
       (cio2ComputeMaxSize [(0x300a, [⟨0, 0, 1280, 720⟩, ⟨0, 0, 1920, 1080⟩])]).1 ∧
     (640 : Nat) ≤ 1920 ∧ (480 : Nat) ≤ 1080 ∧
     (∀ fmt ∈ [((0x300a : Nat), [(⟨0, 0, 1280, 720⟩ : SizeRange), ⟨0, 0, 1920, 1080⟩])],
       ∀ s ∈ fmt.2, s.maxWidth * s.maxHeight < U32)) ∧
    (∃ l₁ c l₂,
      cio2Candidates [(0x300a, [⟨0, 0, 1280, 720⟩, ⟨0, 0, 1920, 1080⟩])] ⟨640, 480, 0, 4⟩ =
        l₁ ++ c :: l₂ ∧
      (∀ e ∈ cio2Candidates [(0x300a, [⟨0, 0, 1280, 720⟩, ⟨0, 0, 1920, 1080⟩])]
          ⟨640, 480, 0, 4⟩,
        excessArea ⟨640, 480, 0, 4⟩ c.2 ≤ excessArea ⟨640, 480, 0, 4⟩ e.2) ∧
      (∀ e ∈ l₁, excessArea ⟨640, 480, 0, 4⟩ c.2 < excessArea ⟨640, 480, 0, 4⟩ e.2) ∧
      PipelineHandlerIPU3.configureStreams
          ⟨[(0x300a, [⟨0, 0, 1280, 720⟩, ⟨0, 0, 1920, 1080⟩])], ⟨1920, 1080⟩, 0,
           none, none, none⟩
          ⟨none, none, none, [], none, none⟩ ⟨640, 480, 0, 4⟩ =
        (0,
         { sensorFormats := [(0x300a, [⟨0, 0, 1280, 720⟩, ⟨0, 0, 1920, 1080⟩])],
           maxSize := ⟨1920, 1080⟩, mbusCode := 0,
           sensorFormat := some ⟨c.2.maxWidth, c.2.maxHeight, c.1⟩,
           csi2Format := some ⟨c.2.maxWidth, c.2.maxHeight, c.1⟩,
           outputFormat := some ⟨c.2.maxWidth, c.2.maxHeight,
             intToU32 (CIO2Device.mediaBusToFormat c.1), 1⟩ },
         { inputFormat := some ⟨c.2.maxWidth, c.2.maxHeight,
             intToU32 (CIO2Device.mediaBusToFormat c.1), 1⟩,
           inputCrop := some ⟨0, 0, c.2.maxWidth, c.2.maxHeight⟩,
           inputCompose := some ⟨0, 0, c.2.maxWidth, c.2.maxHeight⟩,
           padFormats :=
             [(ImgUDevice.PAD_INPUT, ⟨640, 480, MEDIA_BUS_FMT_FIXED⟩),
              (ImgUDevice.PAD_OUTPUT, ⟨640, 480, MEDIA_BUS_FMT_FIXED⟩),
              (ImgUDevice.PAD_VF, ⟨640, 480, MEDIA_BUS_FMT_FIXED⟩),
              (ImgUDevice.PAD_STAT, ⟨640, 480, MEDIA_BUS_FMT_FIXED⟩)],
           outputDevFormat := some ⟨640, 480, V4L2_PIX_FMT_NV12, 2⟩,
           viewfinderDevFormat := some ⟨640, 480, V4L2_PIX_FMT_NV12, 2⟩ })) := by
  refine ⟨⟨by decide, by decide, by decide, by decide, by decide, by decide, by decide,
           by decide⟩, ?_⟩
  have h := configureStreams_selects_min
    ⟨[(0x300a, [⟨0, 0, 1280, 720⟩, ⟨0, 0, 1920, 1080⟩])], ⟨1920, 1080⟩, 0,
     none, none, none⟩
    ⟨none, none, none, [], none, none⟩ ⟨640, 480, 0, 4⟩
    (by decide) (by decide) (by decide) (by decide) (by decide) (by decide) (by decide)
    (by decide)
  simpa using h
